import Mathlib

/-
Verification of the CV-to-JSON-schema exporter (CMIP6_CVs, files
src/cv2schema.py and src/export_schema.py) against its specification.

The Python code is shallowly embedded:
* JSON values (the result of json.load) are the inductive type JVal;
  Python dicts are association lists (List (String × JVal)) in insertion
  order, with Python dict assignment/pop/lookup semantics (insertA,
  eraseA, lookupA).
* Python exceptions are the type PyErr; fallible functions return
  Except PyErr.  JSONDecodeError (a ValueError subclass) and the
  explicit ValueError raise are distinct constructors from KeyError and
  FileNotFoundError, mirroring which exception classes an except clause
  catches.  A cv.pop call on a non-dict JSON value raises
  TypeError/AttributeError depending on the value; both are modelled as
  typeError, and neither is caught anywhere, as in the source.
* The filesystem of CV files is a function FS : String → Option
  (Option JVal): none means CMIP6_<key>.json is absent
  (FileNotFoundError), some none means the file exists but is not valid
  JSON (json.JSONDecodeError), some (some v) means it parses to v.
* cv_to_property mutates its argument (cv.pop); it is embedded as a
  state-passing function returning the post-state of the caller's dict
  together with the result, so the mutation is visible even on the
  exception paths (a Python exception does not roll back the pop).
-/

inductive JVal where
  | jnull : JVal
  | jbool : Bool → JVal
  | jnum : Int → JVal
  | jstr : String → JVal
  | jarr : List JVal → JVal
  | jobj : List (String × JVal) → JVal

abbrev PyDict := List (String × JVal)

/-- Python dict lookup `d[k]` as an Option (none = key absent). -/
def lookupA {α : Type} : List (String × α) → String → Option α
  | [], _ => none
  | (k, v) :: rest, key => if k = key then some v else lookupA rest key

/-- Python dict assignment `d[k] = v`: update in place if the key exists
(keeping its position), else append at the end. -/
def insertA {α : Type} : List (String × α) → String → α → List (String × α)
  | [], key, val => [(key, val)]
  | (k, v) :: rest, key, val =>
      if k = key then (k, val) :: rest else (k, v) :: insertA rest key val

/-- Python dict `d.pop(k)`: remove the entry for key k (dict keys are
unique, so removing the first occurrence is removal of the key). -/
def eraseA {α : Type} : List (String × α) → String → List (String × α)
  | [], _ => []
  | (k, v) :: rest, key =>
      if k = key then rest else (k, v) :: eraseA rest key

/-- Python exception classes relevant to the code under verification. -/
inductive PyErr where
  | fileNotFound : PyErr
  | jsonDecode : PyErr
  | keyError : PyErr
  | typeError : PyErr
  | valueError : String → PyErr
deriving DecidableEq

/-- The CV file store: value of key k models the file CMIP6_<k>.json.
none = absent, some none = present but invalid JSON, some (some v) = parses to v. -/
def FS := String → Option (Option JVal)

namespace cv2schema

/-- read_cv from src/cv2schema.py: open CMIP6_<key>.json and json.load it. -/
def read_cv (fs : FS) (key : String) : Except PyErr JVal :=
  match fs key with
  | none => .error .fileNotFound
  | some none => .error .jsonDecode
  | some (some v) => .ok v

/-- The static per-facet display-field table `field` in cv_to_property. -/
def field : List (String × String) :=
  [("source_id", "label"), ("experiment_id", "description")]

/-- The inner loop of cv_to_property over keys.items(): build the list of
one-of items.  A plain-string value contributes its string as title; a
mapping value contributes value.get(field[fid], "") (KeyError when fid is
not in the field table); any other value is skipped. -/
def mkItems (fid : String) : PyDict → Except PyErr (List JVal)
  | [] => .ok []
  | (key, value) :: rest =>
    match value with
    | .jstr s =>
        match mkItems fid rest with
        | .error er => .error er
        | .ok tail => .ok (.jobj [("const", .jstr key), ("title", .jstr s)] :: tail)
    | .jobj kv =>
        match lookupA field fid with
        | none => .error .keyError
        | some f =>
            match mkItems fid rest with
            | .error er => .error er
            | .ok tail =>
                .ok (.jobj [("const", .jstr key),
                            ("title", (lookupA kv f).getD (.jstr ""))] :: tail)
    | _ => mkItems fid rest

/-- item["const"] for the enum-mode list comprehension. -/
def itemConst : JVal → Except PyErr JVal
  | .jobj kvs =>
      match lookupA kvs "const" with
      | some v => .ok v
      | none => .error .keyError
  | _ => .error .typeError

/-- The comprehension [item["const"] for item in items]. -/
def constList : List JVal → Except PyErr (List JVal)
  | [] => .ok []
  | it :: rest =>
    match itemConst it with
    | .error er => .error er
    | .ok c =>
        match constList rest with
        | .error er => .error er
        | .ok cs => .ok (c :: cs)

/-- The `for fid, keys in cv.items()` loop of cv_to_property, accumulating
the out dict.  A mapping payload yields oneOf (or enum when enum=True),
a list payload yields enum, any other payload is skipped. -/
def buildOut (enum : Bool) : PyDict → PyDict → Except PyErr PyDict
  | out, [] => .ok out
  | out, (fid, keys) :: rest =>
    match keys with
    | .jobj kv =>
        match mkItems fid kv with
        | .error er => .error er
        | .ok items =>
            if enum then
              match constList items with
              | .error er => .error er
              | .ok cs =>
                  buildOut enum (insertA out fid (.jobj [("enum", .jarr cs)])) rest
            else
              buildOut enum (insertA out fid (.jobj [("oneOf", .jarr items)])) rest
    | .jarr xs =>
        buildOut enum (insertA out fid (.jobj [("enum", .jarr xs)])) rest
    | _ => buildOut enum out rest

/-- cv_to_property from src/cv2schema.py.  Returns the post-state of the
caller's cv dict (which the function mutates via cv.pop) together with
the result.  The pop raises KeyError when version_metadata is absent
(dict unchanged); after the pop, more than one remaining key raises
ValueError (dict already mutated). -/
def cv_to_property (cv : PyDict) (enum : Bool) : PyDict × Except PyErr PyDict :=
  match lookupA cv "version_metadata" with
  | none => (cv, .error .keyError)
  | some _ =>
    let cv1 := eraseA cv "version_metadata"
    if cv1.length > 1 then
      (cv1, .error (.valueError "CV has more than one key."))
    else
      (cv1, buildOut enum [] cv1)

/-- The integer_fields list inside make_global_attrs_schema. -/
def integer_fields : List String :=
  ["initialization_index", "physics_index", "realization_index", "forcing_index"]

/-- The formats dict inside make_global_attrs_schema. -/
def formats : List (String × String) :=
  [("creation_date", "date-time"), ("further_info_url", "uri")]

/-- Python subscript d[k] on a JSON value: KeyError when the key is
absent from a dict, TypeError when the value is not a dict. -/
def subscr (v : JVal) (k : String) : Except PyErr JVal :=
  match v with
  | .jobj kvs =>
      match lookupA kvs k with
      | some x => .ok x
      | none => .error .keyError
  | _ => .error .typeError

/-- Auxiliary for pyIterStrs: each iterated element must be a string for
`prefix + fid` to succeed; otherwise TypeError. -/
def mapStrs : List JVal → Except PyErr (List String)
  | [] => .ok []
  | .jstr s :: rest =>
      match mapStrs rest with
      | .error er => .error er
      | .ok t => .ok (s :: t)
  | _ :: _ => .error .typeError

/-- The comprehension [prefix + fid for fid in reqs] requires reqs to be
iterable with string elements: a JSON list of strings, a dict (iterating
its keys), or a string (iterating its one-character substrings);
anything else raises TypeError. -/
def pyIterStrs (v : JVal) : Except PyErr (List String) :=
  match v with
  | .jarr xs => mapStrs xs
  | .jobj kvs => .ok (kvs.map Prod.fst)
  | .jstr s => .ok (s.data.map (fun c => String.mk [c]))
  | _ => .error .typeError

/-- The `for key, val in cv_to_property(cv, enum=enum).items():
props[prefix + key] = val` loop. -/
def addProps (pfxStr : String) : PyDict → PyDict → PyDict
  | props, [] => props
  | props, (k, v) :: rest => addProps pfxStr (insertA props (pfxStr ++ k) v) rest

/-- The body of the `try:` block for a non-index, non-mip_era facet:
read the facet's CV and merge cv_to_property's output into props.
A non-dict CV value makes cv.pop raise (TypeError/AttributeError). -/
def tryFacet (fs : FS) (pfxStr : String) (enum : Bool) (props : PyDict)
    (fid : String) : Except PyErr PyDict :=
  match read_cv fs fid with
  | .error er => .error er
  | .ok cvv =>
    match cvv with
    | .jobj cvd =>
        match (cv_to_property cvd enum).2 with
        | .error er => .error er
        | .ok out => .ok (addProps pfxStr props out)
    | _ => .error .typeError

/-- The format overlay `if fid in formats:
props[prefix + fid]["format"] = formats[fid]` at the end of each loop
iteration.  The lookup of props[prefix + fid] is outside the try and can
raise KeyError (or TypeError if the stored fragment is not a dict). -/
def formatOverlay (pfxStr : String) (fid : String) (props1 : PyDict) :
    Except PyErr PyDict :=
  match lookupA formats fid with
  | none => .ok props1
  | some fmt =>
    match lookupA props1 (pfxStr ++ fid) with
    | none => .error .keyError
    | some (.jobj kvs) =>
        .ok (insertA props1 (pfxStr ++ fid) (.jobj (insertA kvs "format" (.jstr fmt))))
    | some _ => .error .typeError

/-- One iteration of the `for fid in reqs` loop of
make_global_attrs_schema: the integer/mip_era/else classification with
its except (FileNotFoundError, KeyError) clause, followed by the format
overlay. -/
def processFacet (fs : FS) (pfxStr : String) (enum : Bool) (props : PyDict)
    (fid : String) : Except PyErr PyDict :=
  let step :=
    if fid ∈ integer_fields then
      Except.ok (insertA props (pfxStr ++ fid) (.jobj [("type", .jstr "integer")]))
    else if fid = "mip_era" then
      Except.ok (insertA props "mip_era" (.jobj [("const", .jstr "CMIP6")]))
    else
      match tryFacet fs pfxStr enum props fid with
      | .ok ps => Except.ok ps
      | .error .fileNotFound =>
          Except.ok (insertA props (pfxStr ++ fid) (.jobj [("type", .jstr "string")]))
      | .error .keyError =>
          Except.ok (insertA props (pfxStr ++ fid) (.jobj [("type", .jstr "string")]))
      | .error er => Except.error er
  match step with
  | .error er => .error er
  | .ok props1 => formatOverlay pfxStr fid props1

/-- The whole `for fid in reqs` loop accumulating props. -/
def buildProps (fs : FS) (pfxStr : String) (enum : Bool) :
    PyDict → List String → Except PyErr PyDict
  | props, [] => .ok props
  | props, fid :: rest =>
    match processFacet fs pfxStr enum props fid with
    | .error er => .error er
    | .ok props1 => buildProps fs pfxStr enum props1 rest

/-- The assignment `prefix = prefix + ":" if prefix else ""`: None and
the empty string (both falsy) give "", anything else gets a trailing
colon. -/
def pfxString : Option String → String
  | none => ""
  | some s => if s = "" then "" else s ++ ":"

/-- The schema document literal returned by make_global_attrs_schema,
with properties filled in by `schema["properties"].update(props)` (the
literal's own properties value is the empty dict, so the update equals
props) and required = [prefix + fid for fid in reqs]. -/
def mkSchema (pfxStr : String) (reqs : List String) (props : PyDict) : JVal :=
  .jobj [
    ("$schema", .jstr "http://json-schema.org/draft-07/schema#"),
    ("$id", .jstr "cmip6-global-attrs-schema.json#"),
    ("title", .jstr "CMIP6 metadata schema for global attributes"),
    ("description", .jstr "JSON schema for global attributes metadata of CMIP6 datasets. This schema is automatically generated from the CVs. Manual edits will be overwritten."),
    ("type", .jstr "object"),
    ("properties", .jobj props),
    ("required", .jarr (reqs.map (fun fid => .jstr (pfxStr ++ fid))))]

/-- make_global_attrs_schema from src/cv2schema.py, parameterized by the
CV file store. -/
def make_global_attrs_schema (fs : FS) (pfx : Option String) (enum : Bool) :
    Except PyErr JVal :=
  match read_cv fs "required_global_attributes" with
  | .error er => .error er
  | .ok rga =>
    match subscr rga "required_global_attributes" with
    | .error er => .error er
    | .ok payload =>
      match pyIterStrs payload with
      | .error er => .error er
      | .ok reqs =>
        match buildProps fs (cv2schema.pfxString pfx) enum [] reqs with
        | .error er => .error er
        | .ok props => .ok (mkSchema (cv2schema.pfxString pfx) reqs props)

end cv2schema

/-- Field accessor on a JSON object (used only to state properties of the
generated schema document). -/
def getKey (v : JVal) (k : String) : Option JVal :=
  match v with
  | .jobj kvs => lookupA kvs k
  | _ => none

/-- The `required` array of a generated schema document. -/
def requiredList (schema : JVal) : Option (List JVal) :=
  match getKey schema "required" with
  | some (.jarr l) => some l
  | _ => none

/-- Lookup of one facet's fragment in the `properties` object of a
generated schema document. -/
def propLookup (schema : JVal) (k : String) : Option JVal :=
  match getKey schema "properties" with
  | some p => getKey p k
  | none => none

/-- The properties key that processing facet fid writes: always the
unprefixed "mip_era" for the mip_era facet, prefix + fid otherwise. -/
def targetKey (pfxStr fid : String) : String :=
  if fid = "mip_era" then "mip_era" else pfxStr ++ fid

/-- Shape of the prefix string computed by make_global_attrs_schema:
empty, or ending in a colon. -/
def Pfx (p : String) : Prop := p = "" ∨ ∃ s, p = s ++ ":"

/-- A well-formed CV document for facet key `key`, as the spec's data
model describes CV documents: a JSON object carrying version_metadata
plus exactly one payload entry whose key equals the facet name and whose
value is a mapping or a list. -/
def WFdoc (key : String) (d : JVal) : Prop :=
  ∃ kvs vm payload, d = .jobj kvs
    ∧ lookupA kvs "version_metadata" = some vm
    ∧ eraseA kvs "version_metadata" = [(key, payload)]
    ∧ ((∃ m, payload = .jobj m) ∨ (∃ l, payload = .jarr l))

/-- A well-formed CV set: every CV file that exists and parses is a
well-formed CV document for its own facet key. -/
def WF (fs : FS) : Prop := ∀ k d, fs k = some (some d) → WFdoc k d

/-- CV set whose required list is just mip_era (input for claim C1's
counterexample: build it with prefix "ds"). -/
def fsC1 : FS := fun k =>
  if k = "required_global_attributes" then
    some (some (.jobj [("version_metadata", .jobj []),
      ("required_global_attributes", .jarr [.jstr "mip_era"])]))
  else none

/-- The schema make_global_attrs_schema produces from fsC1 with
prefix "ds": required is ["ds:mip_era"] but the properties key is the
unprefixed "mip_era". -/
def schemaC1Val : JVal :=
  cv2schema.mkSchema "ds:" ["mip_era"]
    [("mip_era", .jobj [("const", .jstr "CMIP6")])]

/-- A well-formed CV set exercising all four classification branches:
a mapping-shaped facet, the mip_era constant, an integer facet, and a
facet with no CV file that also carries a format overlay. -/
def fsW : FS := fun k =>
  if k = "required_global_attributes" then
    some (some (.jobj [("version_metadata", .jobj []),
      ("required_global_attributes",
        .jarr [.jstr "activity_id", .jstr "mip_era",
               .jstr "realization_index", .jstr "creation_date"])]))
  else if k = "activity_id" then
    some (some (.jobj [("version_metadata", .jobj []),
      ("activity_id", .jobj [("CMIP", .jstr "CMIP DECK")])]))
  else none

/-- The schema make_global_attrs_schema produces from fsW with no
prefix. -/
def schemaWVal : JVal :=
  cv2schema.mkSchema ""
    ["activity_id", "mip_era", "realization_index", "creation_date"]
    [("activity_id", .jobj [("oneOf",
        .jarr [.jobj [("const", .jstr "CMIP"), ("title", .jstr "CMIP DECK")]])]),
     ("mip_era", .jobj [("const", .jstr "CMIP6")]),
     ("realization_index", .jobj [("type", .jstr "integer")]),
     ("creation_date", .jobj [("type", .jstr "string"),
                              ("format", .jstr "date-time")])]

/-- fsW with an invalid-JSON CMIP6_mip_era.json file added (for claim
C6: the mip_era property ignores that file entirely). -/
def fsW2 : FS := fun k => if k = "mip_era" then some none else fsW k

/-- fsW with an invalid-JSON CMIP6_realization_index.json file added
(for claim C7: the integer fragment ignores that file entirely). -/
def fsW3 : FS := fun k => if k = "realization_index" then some none else fsW k

namespace export_schema

/-- The static per-facet display-field table `field` in cv_to_property of
src/export_schema.py (same content as in cv2schema.py). -/
def field : List (String × String) :=
  [("source_id", "label"), ("experiment_id", "description")]

/-- The inner loop of export_schema's cv_to_property: unlike cv2schema's,
a mapping value contributes value[field[fid]] — a KeyError when the
display field is absent from the sub-mapping (no empty-string default). -/
def mkItems (fid : String) : PyDict → Except PyErr (List JVal)
  | [] => .ok []
  | (key, value) :: rest =>
    match value with
    | .jstr s =>
        match mkItems fid rest with
        | .error er => .error er
        | .ok tail => .ok (.jobj [("const", .jstr key), ("title", .jstr s)] :: tail)
    | .jobj kv =>
        match lookupA field fid with
        | none => .error .keyError
        | some f =>
            match lookupA kv f with
            | none => .error .keyError
            | some t =>
                match mkItems fid rest with
                | .error er => .error er
                | .ok tail => .ok (.jobj [("const", .jstr key), ("title", t)] :: tail)
    | _ => mkItems fid rest

/-- The `for fid, keys in cv.items()` loop of export_schema's
cv_to_property; no enum mode, a mapping payload always yields oneOf. -/
def buildOut : PyDict → PyDict → Except PyErr PyDict
  | out, [] => .ok out
  | out, (fid, keys) :: rest =>
    match keys with
    | .jobj kv =>
        match mkItems fid kv with
        | .error er => .error er
        | .ok items => buildOut (insertA out fid (.jobj [("oneOf", .jarr items)])) rest
    | .jarr xs => buildOut (insertA out fid (.jobj [("enum", .jarr xs)])) rest
    | _ => buildOut out rest

/-- cv_to_property from src/export_schema.py, with the same state-passing
treatment of the cv.pop mutation as the cv2schema version. -/
def cv_to_property (cv : PyDict) : PyDict × Except PyErr PyDict :=
  match lookupA cv "version_metadata" with
  | none => (cv, .error .keyError)
  | some _ =>
    let cv1 := eraseA cv "version_metadata"
    if cv1.length > 1 then
      (cv1, .error (.valueError "CV has more than one key."))
    else
      (cv1, buildOut [] cv1)

end export_schema

/-- Entries of a mapping-shaped CV payload that cv_to_property turns into
an item: plain strings and sub-mappings.  Every other entry is skipped. -/
def goodEntry : String × JVal → Bool
  | (_, .jstr _) => true
  | (_, .jobj _) => true
  | _ => false

/-- A mapping-shaped CV whose single entry's sub-mapping lacks the
source_id display field "label" (input for claim C5). -/
def cvC5 : PyDict :=
  [("version_metadata", .jobj []), ("source_id", .jobj [("CESM2", .jobj [])])]

/-- A small well-formed CV dict (input for claim C9's witness). -/
def cvC9 : PyDict :=
  [("version_metadata", .jobj []), ("frequency", .jarr [.jstr "mon"])]

/-- The "const" value of a one-of item (used to state claim C4: the item
lists produced by cv_to_property always carry a "const" key). -/
def constOf : JVal → JVal
  | .jobj kvs => (lookupA kvs "const").getD .jnull
  | _ => .jnull

/-- A mapping-shaped CV with both a sub-mapping entry and a plain-string
entry (input for claim C4's witness). -/
def cvC4 : PyDict :=
  [("version_metadata", .jobj []),
   ("source_id", .jobj [("CESM2", .jobj [("label", .jstr "CESM 2")]),
                        ("ABBA", .jstr "a band")])]

/-- A CV document lacking version_metadata (input for claim C8). -/
def cvC8a : PyDict := [("frequency", .jobj [("mon", .jstr "monthly")])]

/-- A mapping-shaped CV whose facet key table_id is absent from the
static display-field table (input for claim C8). -/
def cvC8b : PyDict :=
  [("version_metadata", .jobj []),
   ("table_id", .jobj [("Amon", .jobj [("label", .jstr "x")])])]

/-- A CV store where both required facets make cv_to_property raise
KeyError (missing version_metadata, resp. facet absent from the
display-field table): the schema build must degrade both to strings. -/
def fsC8 : FS := fun k =>
  if k = "required_global_attributes" then
    some (some (.jobj [("required_global_attributes",
      .jarr [.jstr "frequency", .jstr "table_id"])]))
  else if k = "frequency" then some (some (.jobj cvC8a))
  else if k = "table_id" then some (some (.jobj cvC8b))
  else none

/-- A CV store whose single required facet has a CV with two payload keys
besides version_metadata — the Malformed-CV case of claim C2. -/
def fsC2 : FS := fun k =>
  if k = "required_global_attributes" then
    some (some (.jobj [("version_metadata", .jobj []),
      ("required_global_attributes", .jarr [.jstr "activity_id"])]))
  else if k = "activity_id" then
    some (some (.jobj [("version_metadata", .jobj []),
      ("activity_id", .jobj [("CMIP", .jstr "CMIP DECK")]),
      ("extra", .jstr "x")]))
  else none

/-- CV store with no files at all (claim C3: required_global_attributes
absent). -/
def fsC3a : FS := fun _ => none

/-- CV store where the required_global_attributes file is invalid JSON
(claim C3). -/
def fsC3b : FS := fun k =>
  if k = "required_global_attributes" then some none else none

/-- CV store where the required_global_attributes file parses but lacks
the required_global_attributes payload key (claim C3). -/
def fsC3c : FS := fun k =>
  if k = "required_global_attributes" then
    some (some (.jobj [("version_metadata", .jobj [])]))
  else none

/-- CV store where a required facet's own CV file is invalid JSON
(claim C3). -/
def fsC3d : FS := fun k =>
  if k = "required_global_attributes" then
    some (some (.jobj [("required_global_attributes", .jarr [.jstr "activity_id"])]))
  else if k = "activity_id" then some none
  else none

section sanity

def fsEx : FS := fun k =>
  if k = "required_global_attributes" then
    some (some (.jobj [("version_metadata", .jobj []),
      ("required_global_attributes",
        .jarr [.jstr "activity_id", .jstr "mip_era", .jstr "realization_index"])]))
  else if k = "activity_id" then
    some (some (.jobj [("version_metadata", .jobj []),
      ("activity_id", .jobj [("CMIP", .jstr "CMIP DECK")])]))
  else none

example :
    cv2schema.make_global_attrs_schema fsEx none false
    = .ok (cv2schema.mkSchema "" ["activity_id", "mip_era", "realization_index"]
        [("activity_id", .jobj [("oneOf",
            .jarr [.jobj [("const", .jstr "CMIP"), ("title", .jstr "CMIP DECK")]])]),
         ("mip_era", .jobj [("const", .jstr "CMIP6")]),
         ("realization_index", .jobj [("type", .jstr "integer")])]) := rfl

example :
    propLookup (cv2schema.mkSchema "" ["a"] [("a", .jobj [("type", .jstr "string")])]) "a"
    = some (.jobj [("type", .jstr "string")]) := rfl

example :
    cv2schema.make_global_attrs_schema fsEx (some "ds") true
    = .ok (cv2schema.mkSchema "ds:" ["activity_id", "mip_era", "realization_index"]
        [("ds:activity_id", .jobj [("enum", .jarr [.jstr "CMIP"])]),
         ("mip_era", .jobj [("const", .jstr "CMIP6")]),
         ("ds:realization_index", .jobj [("type", .jstr "integer")])]) := rfl

example :
    (cv2schema.cv_to_property
      [("version_metadata", .jobj []), ("activity_id", .jobj [("CMIP", .jstr "CMIP DECK")])]
      false).2
    = .ok [("activity_id", .jobj [("oneOf",
        .jarr [.jobj [("const", .jstr "CMIP"), ("title", .jstr "CMIP DECK")]])])] := rfl

example :
    (cv2schema.cv_to_property
      [("version_metadata", .jobj []), ("activity_id", .jobj [("CMIP", .jstr "CMIP DECK")])]
      true).2
    = .ok [("activity_id", .jobj [("enum", .jarr [.jstr "CMIP"])])] := rfl

example :
    (export_schema.cv_to_property
      [("version_metadata", .jobj []), ("source_id", .jobj [("CESM2", .jobj [])])]).2
    = .error .keyError := rfl

example :
    (cv2schema.cv_to_property
      [("version_metadata", .jobj []), ("source_id", .jobj [("CESM2", .jobj [])])]
      false).2
    = .ok [("source_id", .jobj [("oneOf",
        .jarr [.jobj [("const", .jstr "CESM2"), ("title", .jstr "")]])])] := rfl

end sanity

/- ------------------------------------------------------------------ -/
/- Association-list (Python dict) lemmas                               -/
/- ------------------------------------------------------------------ -/

theorem lookupA_insertA_self {α : Type} (p : List (String × α)) (k : String) (v : α) :
    lookupA (insertA p k v) k = some v := by
  induction p with
  | nil => simp [insertA, lookupA]
  | cons hd tl ih =>
    obtain ⟨a, b⟩ := hd
    by_cases hak : a = k
    · simp [insertA, hak, lookupA]
    · simp [insertA, hak, lookupA, ih]

theorem lookupA_insertA_ne {α : Type} (p : List (String × α)) (k k' : String) (v : α)
    (h : k' ≠ k) : lookupA (insertA p k v) k' = lookupA p k' := by
  induction p with
  | nil => simp [insertA, lookupA, Ne.symm h]
  | cons hd tl ih =>
    obtain ⟨a, b⟩ := hd
    by_cases hak : a = k
    · subst hak
      simp [insertA, lookupA, Ne.symm h]
    · simp [insertA, hak, lookupA, ih]

theorem insertA_insertA {α : Type} (p : List (String × α)) (k : String) (a b : α) :
    insertA (insertA p k a) k b = insertA p k b := by
  induction p with
  | nil => simp [insertA]
  | cons hd tl ih =>
    obtain ⟨x, y⟩ := hd
    by_cases hxk : x = k
    · simp [insertA, hxk]
    · simp [insertA, hxk, ih]

theorem isSome_lookupA_insertA {α : Type} (p : List (String × α)) (k k' : String) (v : α)
    (h : (lookupA p k').isSome) : (lookupA (insertA p k v) k').isSome := by
  by_cases hk : k' = k
  · subst hk; rw [lookupA_insertA_self]; simp
  · rw [lookupA_insertA_ne p k k' v hk]; exact h

theorem eraseA_of_lookupA_none {α : Type} (p : List (String × α)) (k : String)
    (h : lookupA p k = none) : eraseA p k = p := by
  induction p with
  | nil => simp [eraseA]
  | cons hd tl ih =>
    obtain ⟨a, b⟩ := hd
    by_cases hak : a = k
    · simp [lookupA, hak] at h
    · simp only [lookupA, if_neg hak] at h
      simp [eraseA, hak, ih h]

theorem lookupA_eraseA_ne {α : Type} (p : List (String × α)) (k k' : String)
    (h : k' ≠ k) : lookupA (eraseA p k) k' = lookupA p k' := by
  induction p with
  | nil => simp [eraseA]
  | cons hd tl ih =>
    obtain ⟨a, b⟩ := hd
    by_cases hak : a = k
    · subst hak
      simp [eraseA, lookupA, Ne.symm h]
    · simp [eraseA, hak, lookupA, ih]

theorem lookupA_eq_none_of_not_mem {α : Type} (p : List (String × α)) (k : String)
    (h : k ∉ p.map Prod.fst) : lookupA p k = none := by
  induction p with
  | nil => simp [lookupA]
  | cons hd tl ih =>
    obtain ⟨a, b⟩ := hd
    simp only [List.map_cons, List.mem_cons] at h
    push_neg at h
    simp [lookupA, Ne.symm h.1, ih h.2]

theorem lookupA_eraseA_self {α : Type} (p : List (String × α)) (k : String)
    (h : (p.map Prod.fst).Nodup) : lookupA (eraseA p k) k = none := by
  induction p with
  | nil => simp [eraseA, lookupA]
  | cons hd tl ih =>
    obtain ⟨a, b⟩ := hd
    simp only [List.map_cons, List.nodup_cons] at h
    by_cases hak : a = k
    · subst hak
      simp [eraseA, lookupA_eq_none_of_not_mem tl a h.1]
    · simp [eraseA, hak, lookupA, ih h.2]

/- ------------------------------------------------------------------ -/
/- String lemmas                                                       -/
/- ------------------------------------------------------------------ -/

theorem str_append_left_cancel (p a b : String) (h : p ++ a = p ++ b) : a = b := by
  apply String.ext
  have h2 := congrArg String.data h
  simp only [String.data_append] at h2
  exact List.append_cancel_left h2

theorem str_empty_append (s : String) : "" ++ s = s := by
  apply String.ext
  simp [String.data_append]

theorem colon_append_ne_mip_era (s t : String) : (s ++ ":") ++ t ≠ "mip_era" := by
  intro h
  have h2 := congrArg String.data h
  simp only [String.data_append] at h2
  have hm : ':' ∈ s.data ++ ":".data ++ t.data := by simp
  rw [h2] at hm
  have hno : ¬ (':' ∈ ("mip_era" : String).data) := by decide
  exact hno hm

/- ------------------------------------------------------------------ -/
/- The post-state (mutation) of cv_to_property                         -/
/- ------------------------------------------------------------------ -/

theorem cvtp_fst_cv2 (cv : PyDict) (e : Bool) :
    (cv2schema.cv_to_property cv e).1 = eraseA cv "version_metadata" := by
  unfold cv2schema.cv_to_property
  cases h : lookupA cv "version_metadata" with
  | none =>
      exact (eraseA_of_lookupA_none cv "version_metadata" h).symm
  | some v =>
      dsimp only
      split <;> rfl

theorem cvtp_fst_export (cv : PyDict) :
    (export_schema.cv_to_property cv).1 = eraseA cv "version_metadata" := by
  unfold export_schema.cv_to_property
  cases h : lookupA cv "version_metadata" with
  | none =>
      exact (eraseA_of_lookupA_none cv "version_metadata" h).symm
  | some v =>
      dsimp only
      split <;> rfl

/-- Claim C9: cv_to_property mutates its input: on every call the
caller's CV dictionary ends up with exactly the version_metadata key
removed in place (when the key is absent the pop raises KeyError and the
dict is unchanged, which is the same dict minus a key it does not have),
and all other keys keep their values.  This holds for both the
cv2schema.py and the export_schema.py implementation. -/
theorem C9_pop_mutates_version_metadata (cv : PyDict) (e : Bool)
    (hnd : (cv.map Prod.fst).Nodup) :
    ((cv2schema.cv_to_property cv e).1 = eraseA cv "version_metadata"
      ∧ lookupA (cv2schema.cv_to_property cv e).1 "version_metadata" = none
      ∧ (∀ k, k ≠ "version_metadata" →
          lookupA (cv2schema.cv_to_property cv e).1 k = lookupA cv k))
    ∧ ((export_schema.cv_to_property cv).1 = eraseA cv "version_metadata"
      ∧ lookupA (export_schema.cv_to_property cv).1 "version_metadata" = none
      ∧ (∀ k, k ≠ "version_metadata" →
          lookupA (export_schema.cv_to_property cv).1 k = lookupA cv k)) := by
  have h1 := cvtp_fst_cv2 cv e
  have h2 := cvtp_fst_export cv
  refine ⟨⟨h1, ?_, ?_⟩, ⟨h2, ?_, ?_⟩⟩
  · rw [h1]; exact lookupA_eraseA_self cv _ hnd
  · intro k hk; rw [h1]; exact lookupA_eraseA_ne cv _ k hk
  · rw [h2]; exact lookupA_eraseA_self cv _ hnd
  · intro k hk; rw [h2]; exact lookupA_eraseA_ne cv _ k hk

theorem C9_pop_mutates_version_metadata_witness :
    (cvC9.map Prod.fst).Nodup
    ∧ (cv2schema.cv_to_property cvC9 false).1 = eraseA cvC9 "version_metadata"
    ∧ lookupA (cv2schema.cv_to_property cvC9 false).1 "version_metadata" = none
    ∧ lookupA (export_schema.cv_to_property cvC9).1 "frequency" = lookupA cvC9 "frequency" :=
  ⟨by decide,
   (C9_pop_mutates_version_metadata cvC9 false (by decide)).1.1,
   (C9_pop_mutates_version_metadata cvC9 false (by decide)).1.2.1,
   (C9_pop_mutates_version_metadata cvC9 false (by decide)).2.2.2 "frequency" (by decide)⟩

/-- Claim C5: on a mapping-shaped CV with an entry whose sub-mapping
lacks the facet's display field (here source_id's "label"), cv2schema's
cv_to_property substitutes the empty title "", while export_schema's
cv_to_property raises KeyError — the two implementations are not
equivalent on that input. -/
theorem C5_display_field_policy_divergence :
    (cv2schema.cv_to_property cvC5 false).2
      = .ok [("source_id", .jobj [("oneOf",
          .jarr [.jobj [("const", .jstr "CESM2"), ("title", .jstr "")]])])]
    ∧ (export_schema.cv_to_property cvC5).2 = .error .keyError :=
  ⟨rfl, rfl⟩

/- ------------------------------------------------------------------ -/
/- Claim C10                                                           -/
/- ------------------------------------------------------------------ -/

theorem mkItems_filter_good (fid : String) (keys : PyDict) :
    cv2schema.mkItems fid (keys.filter goodEntry) = cv2schema.mkItems fid keys := by
  induction keys with
  | nil => rfl
  | cons hd tl ih =>
    obtain ⟨k, v⟩ := hd
    cases v <;> simp [List.filter_cons, goodEntry, cv2schema.mkItems, ih]

/-- Claim C10: in a mapping-shaped CV payload, entries whose value is
neither a plain string nor a mapping contribute nothing to
cv_to_property's output and raise no error: the result is the same as on
the payload with those entries removed (in both enum and one-of mode);
concretely, a list-valued and a number-valued entry disappear from the
oneOf list. -/
theorem C10_non_string_non_mapping_entries_skipped (vm : JVal) (fid : String)
    (keys : PyDict) (e : Bool) :
    ((cv2schema.cv_to_property [("version_metadata", vm), (fid, .jobj keys)] e).2
      = (cv2schema.cv_to_property
          [("version_metadata", vm), (fid, .jobj (keys.filter goodEntry))] e).2)
    ∧ ((cv2schema.cv_to_property [("version_metadata", .jobj []),
          ("activity_id", .jobj [("A", .jarr []), ("B", .jstr "b"), ("C", .jnum 3)])]
          false).2
        = .ok [("activity_id", .jobj [("oneOf",
            .jarr [.jobj [("const", .jstr "B"), ("title", .jstr "b")]])])]) := by
  constructor
  · unfold cv2schema.cv_to_property
    simp [lookupA, eraseA, cv2schema.buildOut, mkItems_filter_good]
  · rfl

/- ------------------------------------------------------------------ -/
/- Claim C4                                                            -/
/- ------------------------------------------------------------------ -/

theorem constList_of_mkItems (fid : String) (kv : PyDict) (items : List JVal)
    (h : cv2schema.mkItems fid kv = .ok items) :
    cv2schema.constList items = .ok (items.map constOf) := by
  induction kv generalizing items with
  | nil =>
      simp only [cv2schema.mkItems, Except.ok.injEq] at h
      subst h
      rfl
  | cons hd tl ih =>
    obtain ⟨k, v⟩ := hd
    cases v with
    | jstr s =>
        simp only [cv2schema.mkItems] at h
        cases hmt : cv2schema.mkItems fid tl with
        | error er => simp [hmt] at h
        | ok tail =>
            rw [hmt] at h
            simp only [Except.ok.injEq] at h
            subst h
            simp only [cv2schema.constList, cv2schema.itemConst, lookupA, if_pos rfl,
              ih tail hmt, List.map_cons, constOf, Option.getD_some, if_true,
              eq_self_iff_true]
    | jobj kv2 =>
        simp only [cv2schema.mkItems] at h
        cases hf : lookupA cv2schema.field fid with
        | none => simp [hf] at h
        | some f =>
            rw [hf] at h
            cases hmt : cv2schema.mkItems fid tl with
            | error er => simp [hmt] at h
            | ok tail =>
                rw [hmt] at h
                simp only [Except.ok.injEq] at h
                subst h
                simp only [cv2schema.constList, cv2schema.itemConst, lookupA, if_pos rfl,
                  ih tail hmt, List.map_cons, constOf, Option.getD_some, if_true,
                  eq_self_iff_true]
    | jnull => simp only [cv2schema.mkItems] at h; exact ih items h
    | jbool b => simp only [cv2schema.mkItems] at h; exact ih items h
    | jnum n => simp only [cv2schema.mkItems] at h; exact ih items h
    | jarr xs => simp only [cv2schema.mkItems] at h; exact ih items h

/-- Claim C4: for a well-formed mapping-shaped CV (version_metadata
present and exactly one remaining entry, whose value is a mapping), the
value list of the enum fragment produced with enum=true is, element for
element, the list of "const" values of the oneOf items produced with
enum=false. -/
theorem C4_enum_and_oneof_agree (cv : PyDict) (vm : JVal) (fid : String)
    (keys : PyDict) (oo ee : PyDict)
    (hvm : lookupA cv "version_metadata" = some vm)
    (her : eraseA cv "version_metadata" = [(fid, .jobj keys)])
    (hoo : (cv2schema.cv_to_property cv false).2 = .ok oo)
    (hee : (cv2schema.cv_to_property cv true).2 = .ok ee) :
    ∃ items, oo = [(fid, .jobj [("oneOf", .jarr items)])]
      ∧ ee = [(fid, .jobj [("enum", .jarr (items.map constOf))])] := by
  unfold cv2schema.cv_to_property at hoo hee
  rw [hvm] at hoo hee
  simp only [her, List.length_cons, List.length_nil] at hoo hee
  norm_num at hoo hee
  cases hmi : cv2schema.mkItems fid keys with
  | error er =>
      simp [cv2schema.buildOut, hmi] at hoo
  | ok items =>
      refine ⟨items, ?_, ?_⟩
      · simp only [cv2schema.buildOut, hmi, Bool.false_eq_true, if_false] at hoo
        simp only [cv2schema.buildOut, insertA, Except.ok.injEq] at hoo
        exact hoo.symm
      · simp only [cv2schema.buildOut, hmi, if_true] at hee
        rw [constList_of_mkItems fid keys items hmi] at hee
        simp only [cv2schema.buildOut, insertA, Except.ok.injEq] at hee
        exact hee.symm

theorem C4_enum_and_oneof_agree_witness :
    ∃ items,
      (cv2schema.cv_to_property cvC4 false).2
        = .ok [("source_id", .jobj [("oneOf", .jarr items)])]
      ∧ (cv2schema.cv_to_property cvC4 true).2
        = .ok [("source_id", .jobj [("enum", .jarr (items.map constOf))])] := by
  obtain ⟨items, h1, h2⟩ := C4_enum_and_oneof_agree cvC4 (.jobj []) "source_id"
    [("CESM2", .jobj [("label", .jstr "CESM 2")]), ("ABBA", .jstr "a band")]
    [("source_id", .jobj [("oneOf", .jarr
        [.jobj [("const", .jstr "CESM2"), ("title", .jstr "CESM 2")],
         .jobj [("const", .jstr "ABBA"), ("title", .jstr "a band")]])])]
    [("source_id", .jobj [("enum", .jarr [.jstr "CESM2", .jstr "ABBA"])])]
    rfl rfl rfl rfl
  exact ⟨items, h1 ▸ rfl, h2 ▸ rfl⟩

/- ------------------------------------------------------------------ -/
/- Claim C8                                                            -/
/- ------------------------------------------------------------------ -/

theorem mkItems_field_keyError (fid : String) (k : String) (sub : PyDict)
    (rest : PyDict) (hf : lookupA cv2schema.field fid = none) :
    ∀ pre : PyDict, (∀ p ∈ pre, ∃ s, p.2 = JVal.jstr s) →
      cv2schema.mkItems fid (pre ++ (k, .jobj sub) :: rest) = .error .keyError := by
  intro pre
  induction pre with
  | nil =>
      intro _
      simp [cv2schema.mkItems, hf]
  | cons hd tl ih =>
      intro hpre
      obtain ⟨a, b⟩ := hd
      obtain ⟨s, hs⟩ := hpre (a, b) (by simp)
      simp only at hs
      subst hs
      have ht := ih (fun p hp => hpre p (by simp [hp]))
      simp [cv2schema.mkItems, ht]

/-- Claim C8: a CV lacking version_metadata, and a mapping-shaped CV whose
facet key is absent from the static display-field table while a
sub-mapping entry is present, both make cv_to_property raise KeyError;
make_global_attrs_schema's except clause catches that KeyError and
degrades that single facet to the string fallback instead of raising,
as the end-to-end build over fsC8 shows. -/
theorem C8_keyerror_raised_and_caught :
    (∀ cv e, lookupA cv "version_metadata" = none →
        (cv2schema.cv_to_property cv e).2 = .error .keyError)
  ∧ (∀ cv e vm fid pre k sub rest,
        lookupA cv "version_metadata" = some vm →
        eraseA cv "version_metadata" = [(fid, .jobj (pre ++ (k, .jobj sub) :: rest))] →
        lookupA cv2schema.field fid = none →
        (∀ p ∈ pre, ∃ s, p.2 = JVal.jstr s) →
        (cv2schema.cv_to_property cv e).2 = .error .keyError)
  ∧ (∀ fs pfxStr e props fid cvd,
        fid ∉ cv2schema.integer_fields → fid ≠ "mip_era" →
        lookupA cv2schema.formats fid = none →
        fs fid = some (some (.jobj cvd)) →
        (cv2schema.cv_to_property cvd e).2 = .error .keyError →
        cv2schema.processFacet fs pfxStr e props fid
          = .ok (insertA props (pfxStr ++ fid) (.jobj [("type", .jstr "string")])))
  ∧ cv2schema.make_global_attrs_schema fsC8 none false
      = .ok (cv2schema.mkSchema "" ["frequency", "table_id"]
          [("frequency", .jobj [("type", .jstr "string")]),
           ("table_id", .jobj [("type", .jstr "string")])]) := by
  refine ⟨?_, ?_, ?_, rfl⟩
  · intro cv e h
    simp [cv2schema.cv_to_property, h]
  · intro cv e vm fid pre k sub rest hvm her hf hpre
    have hmk := mkItems_field_keyError fid k sub rest hf pre hpre
    unfold cv2schema.cv_to_property
    rw [hvm]
    simp [her, cv2schema.buildOut, hmk]
  · intro fs pfxStr e props fid cvd hint hmip hfmt hfs hcv
    unfold cv2schema.processFacet cv2schema.tryFacet cv2schema.read_cv
    rw [if_neg hint, if_neg hmip, hfs]
    dsimp only
    rw [hcv]
    dsimp only
    unfold cv2schema.formatOverlay
    rw [hfmt]

theorem C8_keyerror_raised_and_caught_witness :
    (cv2schema.cv_to_property cvC8a false).2 = .error .keyError
    ∧ (cv2schema.cv_to_property cvC8b false).2 = .error .keyError
    ∧ cv2schema.processFacet fsC8 "" false [] "table_id"
        = .ok (insertA [] ("" ++ "table_id") (.jobj [("type", .jstr "string")])) :=
  ⟨C8_keyerror_raised_and_caught.1 cvC8a false rfl,
   C8_keyerror_raised_and_caught.2.1 cvC8b false (.jobj []) "table_id" []
     "Amon" [("label", .jstr "x")] [] rfl rfl rfl (by simp),
   C8_keyerror_raised_and_caught.2.2.1 fsC8 "" false [] "table_id" cvC8b
     (by decide) (by decide) rfl rfl rfl⟩

/- ------------------------------------------------------------------ -/
/- Error propagation through make_global_attrs_schema (claims C2, C3)  -/
/- ------------------------------------------------------------------ -/

theorem mapStrs_map_jstr (l : List String) :
    cv2schema.mapStrs (l.map JVal.jstr) = .ok l := by
  induction l with
  | nil => rfl
  | cons s rest ih =>
      simp only [List.map_cons, cv2schema.mapStrs]
      rw [ih]

theorem pyIterStrs_map_jstr (l : List String) :
    cv2schema.pyIterStrs (.jarr (l.map JVal.jstr)) = .ok l := by
  unfold cv2schema.pyIterStrs
  exact mapStrs_map_jstr l

theorem buildProps_append (fs : FS) (pfxStr : String) (e : Bool)
    (l1 l2 : List String) : ∀ props : PyDict,
    cv2schema.buildProps fs pfxStr e props (l1 ++ l2)
      = match cv2schema.buildProps fs pfxStr e props l1 with
        | .error er => .error er
        | .ok props1 => cv2schema.buildProps fs pfxStr e props1 l2 := by
  induction l1 with
  | nil => intro props; rfl
  | cons fid rest ih =>
      intro props
      simp only [List.cons_append, cv2schema.buildProps]
      cases cv2schema.processFacet fs pfxStr e props fid with
      | error er => rfl
      | ok props1 => exact ih props1

theorem make_facet_error (fs : FS) (pfx : Option String) (e : Bool) (kvs : PyDict)
    (pre post : List String) (fid : String) (props : PyDict) (er : PyErr)
    (h1 : fs "required_global_attributes" = some (some (.jobj kvs)))
    (h2 : lookupA kvs "required_global_attributes"
            = some (.jarr ((pre ++ fid :: post).map JVal.jstr)))
    (h3 : cv2schema.buildProps fs (cv2schema.pfxString pfx) e [] pre = .ok props)
    (h4 : cv2schema.processFacet fs (cv2schema.pfxString pfx) e props fid = .error er) :
    cv2schema.make_global_attrs_schema fs pfx e = .error er := by
  unfold cv2schema.make_global_attrs_schema cv2schema.read_cv cv2schema.subscr
  rw [h1]
  dsimp only
  rw [h2]
  dsimp only
  rw [pyIterStrs_map_jstr]
  dsimp only
  rw [buildProps_append fs (cv2schema.pfxString pfx) e pre (fid :: post) [], h3]
  dsimp only
  simp only [cv2schema.buildProps]
  rw [h4]

theorem processFacet_uncaught (fs : FS) (pfxStr : String) (e : Bool)
    (props : PyDict) (fid : String) (er : PyErr)
    (h1 : fid ∉ cv2schema.integer_fields) (h2 : fid ≠ "mip_era")
    (htry : cv2schema.tryFacet fs pfxStr e props fid = .error er)
    (hnf : er ≠ .fileNotFound) (hk : er ≠ .keyError) :
    cv2schema.processFacet fs pfxStr e props fid = .error er := by
  unfold cv2schema.processFacet
  rw [if_neg h1, if_neg h2, htry]
  cases er with
  | fileNotFound => exact absurd rfl hnf
  | keyError => exact absurd rfl hk
  | jsonDecode => rfl
  | typeError => rfl
  | valueError m => rfl

theorem cvtp_malformed (cvd : PyDict) (vm : JVal) (e : Bool)
    (h7 : lookupA cvd "version_metadata" = some vm)
    (h8 : 1 < (eraseA cvd "version_metadata").length) :
    (cv2schema.cv_to_property cvd e).2
      = .error (.valueError "CV has more than one key.") := by
  unfold cv2schema.cv_to_property
  rw [h7]
  dsimp only
  rw [if_pos h8]

/- ------------------------------------------------------------------ -/
/- Claim C2                                                            -/
/- ------------------------------------------------------------------ -/

/-- Claim C2 counterexample: a required facet whose CV carries two
payload keys besides version_metadata makes make_global_attrs_schema
raise the ValueError from cv_to_property — no {"type": "string"}
fallback, no schema at all — because the except clause catches only
FileNotFoundError and KeyError. -/
theorem C2_counterexample_malformed_cv_raises :
    cv2schema.make_global_attrs_schema fsC2 none false
      = .error (.valueError "CV has more than one key.") := rfl

/-- Claim C2 (amended): when a required non-index, non-mip_era facet's CV
has version_metadata plus more than one remaining payload key, and the
facets before it processed without error, make_global_attrs_schema
propagates cv_to_property's ValueError to the caller and produces no
schema; the string fallback is reserved for FileNotFoundError and
KeyError. -/
theorem C2_amended_malformed_cv_raises (fs : FS) (pfx : Option String) (e : Bool)
    (kvs : PyDict) (pre post : List String) (fid : String) (props : PyDict)
    (cvd : PyDict) (vm : JVal)
    (h1 : fs "required_global_attributes" = some (some (.jobj kvs)))
    (h2 : lookupA kvs "required_global_attributes"
            = some (.jarr ((pre ++ fid :: post).map JVal.jstr)))
    (h3 : cv2schema.buildProps fs (cv2schema.pfxString pfx) e [] pre = .ok props)
    (h4 : fid ∉ cv2schema.integer_fields) (h5 : fid ≠ "mip_era")
    (h6 : fs fid = some (some (.jobj cvd)))
    (h7 : lookupA cvd "version_metadata" = some vm)
    (h8 : 1 < (eraseA cvd "version_metadata").length) :
    cv2schema.make_global_attrs_schema fs pfx e
      = .error (.valueError "CV has more than one key.") := by
  have htry : cv2schema.tryFacet fs (cv2schema.pfxString pfx) e props fid
      = .error (.valueError "CV has more than one key.") := by
    unfold cv2schema.tryFacet cv2schema.read_cv
    rw [h6]
    dsimp only
    rw [cvtp_malformed cvd vm e h7 h8]
  exact make_facet_error fs pfx e kvs pre post fid props _ h1 h2 h3
    (processFacet_uncaught fs _ e props fid _ h4 h5 htry (by simp) (by simp))

theorem C2_amended_malformed_cv_raises_witness :
    cv2schema.make_global_attrs_schema fsC2 (some "ds") true
      = .error (.valueError "CV has more than one key.") :=
  C2_amended_malformed_cv_raises fsC2 (some "ds") true
    [("version_metadata", .jobj []),
     ("required_global_attributes", .jarr [.jstr "activity_id"])]
    [] [] "activity_id" []
    [("version_metadata", .jobj []),
     ("activity_id", .jobj [("CMIP", .jstr "CMIP DECK")]),
     ("extra", .jstr "x")]
    (.jobj [])
    rfl rfl rfl (by decide) (by decide) rfl rfl (by decide)

/- ------------------------------------------------------------------ -/
/- Claim C3                                                            -/
/- ------------------------------------------------------------------ -/

/-- Claim C3: fatal errors propagate and no partial schema is returned:
(1) a missing required_global_attributes CV file raises FileNotFoundError;
(2) an invalid-JSON required_global_attributes file raises the JSON parse
error; (3) a parsed required_global_attributes document without the
required_global_attributes payload key raises KeyError; (4) an
invalid-JSON CV file of any required (non-index, non-mip_era) facet that
the build reaches raises the JSON parse error (uncaught by the except
clause, which names only FileNotFoundError and KeyError).  In each case
the result is an error, never a schema document. -/
theorem C3_fatal_errors_propagate :
    (∀ fs pfx e, fs "required_global_attributes" = none →
        cv2schema.make_global_attrs_schema fs pfx e = .error .fileNotFound)
  ∧ (∀ fs pfx e, fs "required_global_attributes" = some none →
        cv2schema.make_global_attrs_schema fs pfx e = .error .jsonDecode)
  ∧ (∀ fs pfx e kvs, fs "required_global_attributes" = some (some (.jobj kvs)) →
        lookupA kvs "required_global_attributes" = none →
        cv2schema.make_global_attrs_schema fs pfx e = .error .keyError)
  ∧ (∀ fs pfx e kvs pre post fid props,
        fs "required_global_attributes" = some (some (.jobj kvs)) →
        lookupA kvs "required_global_attributes"
          = some (.jarr ((pre ++ fid :: post).map JVal.jstr)) →
        cv2schema.buildProps fs (cv2schema.pfxString pfx) e [] pre = .ok props →
        fid ∉ cv2schema.integer_fields → fid ≠ "mip_era" →
        fs fid = some none →
        cv2schema.make_global_attrs_schema fs pfx e = .error .jsonDecode) := by
  refine ⟨?_, ?_, ?_, ?_⟩
  · intro fs pfx e h
    unfold cv2schema.make_global_attrs_schema cv2schema.read_cv
    rw [h]
  · intro fs pfx e h
    unfold cv2schema.make_global_attrs_schema cv2schema.read_cv
    rw [h]
  · intro fs pfx e kvs h1 h2
    unfold cv2schema.make_global_attrs_schema cv2schema.read_cv cv2schema.subscr
    rw [h1]
    dsimp only
    rw [h2]
  · intro fs pfx e kvs pre post fid props h1 h2 h3 h4 h5 h6
    have htry : cv2schema.tryFacet fs (cv2schema.pfxString pfx) e props fid
        = .error .jsonDecode := by
      unfold cv2schema.tryFacet cv2schema.read_cv
      rw [h6]
    exact make_facet_error fs pfx e kvs pre post fid props _ h1 h2 h3
      (processFacet_uncaught fs _ e props fid _ h4 h5 htry (by simp) (by simp))

theorem C3_fatal_errors_propagate_witness :
    cv2schema.make_global_attrs_schema fsC3a none false = .error .fileNotFound
    ∧ cv2schema.make_global_attrs_schema fsC3b none false = .error .jsonDecode
    ∧ cv2schema.make_global_attrs_schema fsC3c none false = .error .keyError
    ∧ cv2schema.make_global_attrs_schema fsC3d none false = .error .jsonDecode :=
  ⟨C3_fatal_errors_propagate.1 fsC3a none false rfl,
   C3_fatal_errors_propagate.2.1 fsC3b none false rfl,
   C3_fatal_errors_propagate.2.2.1 fsC3c none false
     [("version_metadata", .jobj [])] rfl rfl,
   C3_fatal_errors_propagate.2.2.2 fsC3d none false
     [("required_global_attributes", .jarr [.jstr "activity_id"])]
     [] [] "activity_id" [] rfl rfl rfl (by decide) (by decide) rfl⟩

/- ------------------------------------------------------------------ -/
/- targetKey lemmas (claims C1, C6, C7)                                -/
/- ------------------------------------------------------------------ -/

theorem int_field_len (fid : String) (h : fid ∈ cv2schema.integer_fields) :
    13 ≤ fid.length := by
  simp only [cv2schema.integer_fields, List.mem_cons, List.not_mem_nil, or_false] at h
  rcases h with rfl | rfl | rfl | rfl <;> decide

theorem mip_era_ne_pfx_int (pfxStr fid : String)
    (h : fid ∈ cv2schema.integer_fields) : "mip_era" ≠ pfxStr ++ fid := by
  intro he
  have h2 := congrArg String.length he
  rw [String.length_append] at h2
  have h3 := int_field_len fid h
  have h4 : ("mip_era" : String).length = 7 := rfl
  omega

theorem pfxString_Pfx (pfx : Option String) : Pfx (cv2schema.pfxString pfx) := by
  cases pfx with
  | none => exact Or.inl rfl
  | some s =>
      by_cases h : s = ""
      · subst h
        exact Or.inl rfl
      · refine Or.inr ⟨s, ?_⟩
        show (if s = "" then "" else s ++ ":") = s ++ ":"
        rw [if_neg h]

theorem pfx_ne_mip_era (pfxStr fid : String) (hp : Pfx pfxStr)
    (h : fid ≠ "mip_era") : pfxStr ++ fid ≠ "mip_era" := by
  rcases hp with rfl | ⟨s, rfl⟩
  · rw [str_empty_append]; exact h
  · exact colon_append_ne_mip_era s fid

theorem targetKey_int (pfxStr fid : String) (h : fid ∈ cv2schema.integer_fields) :
    targetKey pfxStr fid = pfxStr ++ fid := by
  unfold targetKey
  rw [if_neg]
  intro he
  rw [he] at h
  exact absurd h (by decide)

theorem targetKey_other (pfxStr fid : String) (h : fid ≠ "mip_era") :
    targetKey pfxStr fid = pfxStr ++ fid := by
  unfold targetKey
  rw [if_neg h]

theorem targetKey_ne_of_int (pfxStr fid fid' : String)
    (hfid : fid ∈ cv2schema.integer_fields) (hne : fid' ≠ fid) :
    targetKey pfxStr fid' ≠ pfxStr ++ fid := by
  unfold targetKey
  by_cases hm : fid' = "mip_era"
  · rw [if_pos hm]; exact mip_era_ne_pfx_int pfxStr fid hfid
  · rw [if_neg hm]
    intro he
    exact hne (str_append_left_cancel pfxStr fid' fid he)

theorem targetKey_ne_of_mip (pfxStr fid' : String) (hp : Pfx pfxStr)
    (hne : fid' ≠ "mip_era") : targetKey pfxStr fid' ≠ "mip_era" := by
  unfold targetKey
  rw [if_neg hne]
  exact pfx_ne_mip_era pfxStr fid' hp hne

/- ------------------------------------------------------------------ -/
/- processFacet under well-formed CV sets                              -/
/- ------------------------------------------------------------------ -/

theorem formatOverlay_insert (props : PyDict) (pfxStr fid : String)
    (body : PyDict) (props' : PyDict)
    (h : cv2schema.formatOverlay pfxStr fid
          (insertA props (pfxStr ++ fid) (.jobj body)) = .ok props') :
    ∃ body2, props' = insertA props (pfxStr ++ fid) (.jobj body2) := by
  unfold cv2schema.formatOverlay at h
  cases hfmt : lookupA cv2schema.formats fid with
  | none =>
      rw [hfmt] at h
      cases h
      exact ⟨body, rfl⟩
  | some fmt =>
      rw [hfmt, lookupA_insertA_self] at h
      dsimp only at h
      cases h
      exact ⟨insertA body "format" (.jstr fmt),
        insertA_insertA props (pfxStr ++ fid) (.jobj body) _⟩

theorem processFacet_int (fs : FS) (pfxStr : String) (e : Bool) (props : PyDict)
    (fid : String) (h : fid ∈ cv2schema.integer_fields) :
    cv2schema.processFacet fs pfxStr e props fid
      = .ok (insertA props (pfxStr ++ fid) (.jobj [("type", .jstr "integer")])) := by
  have hfmt : lookupA cv2schema.formats fid = none := by
    simp only [cv2schema.integer_fields, List.mem_cons, List.not_mem_nil, or_false] at h
    rcases h with rfl | rfl | rfl | rfl <;> rfl
  unfold cv2schema.processFacet
  rw [if_pos h]
  dsimp only
  unfold cv2schema.formatOverlay
  rw [hfmt]

theorem processFacet_mip (fs : FS) (pfxStr : String) (e : Bool) (props : PyDict) :
    cv2schema.processFacet fs pfxStr e props "mip_era"
      = .ok (insertA props "mip_era" (.jobj [("const", .jstr "CMIP6")])) := by
  unfold cv2schema.processFacet
  rw [if_neg (by decide : ¬ ("mip_era" ∈ cv2schema.integer_fields)), if_pos rfl]
  dsimp only
  unfold cv2schema.formatOverlay
  rw [show lookupA cv2schema.formats "mip_era" = none from rfl]

theorem buildOut_single_ok (e : Bool) (fid : String) (payload : JVal) (out : PyDict)
    (hp : (∃ m, payload = .jobj m) ∨ (∃ l, payload = .jarr l))
    (h : cv2schema.buildOut e [] [(fid, payload)] = .ok out) :
    ∃ body, out = [(fid, .jobj body)] := by
  rcases hp with ⟨m, rfl⟩ | ⟨l, rfl⟩
  · simp only [cv2schema.buildOut] at h
    cases hmi : cv2schema.mkItems fid m with
    | error er => rw [hmi] at h; exact absurd h (by simp)
    | ok items =>
        rw [hmi] at h
        dsimp only at h
        cases e with
        | true =>
            rw [if_pos rfl] at h
            cases hcl : cv2schema.constList items with
            | error er => rw [hcl] at h; exact absurd h (by simp)
            | ok cs =>
                rw [hcl] at h
                simp only [cv2schema.buildOut, insertA, Except.ok.injEq] at h
                exact ⟨[("enum", .jarr cs)], h.symm⟩
        | false =>
            rw [if_neg (by simp)] at h
            simp only [cv2schema.buildOut, insertA, Except.ok.injEq] at h
            exact ⟨[("oneOf", .jarr items)], h.symm⟩
  · simp only [cv2schema.buildOut, insertA, Except.ok.injEq] at h
    exact ⟨[("enum", .jarr l)], h.symm⟩

theorem cvtp_WF_ok (key : String) (kvs : PyDict) (e : Bool) (out : PyDict)
    (hwf : WFdoc key (.jobj kvs))
    (h : (cv2schema.cv_to_property kvs e).2 = .ok out) :
    ∃ body, out = [(key, .jobj body)] := by
  obtain ⟨kvs2, vm, payload, hkvs, hvm, her, hp⟩ := hwf
  have hk2 : kvs2 = kvs := by injection hkvs.symm
  subst hk2
  unfold cv2schema.cv_to_property at h
  rw [hvm] at h
  dsimp only at h
  rw [her] at h
  rw [if_neg (by simp)] at h
  exact buildOut_single_ok e key payload out hp h

theorem processFacet_ok_shape (fs : FS) (pfxStr : String) (e : Bool)
    (props props' : PyDict) (fid : String) (hwf : WF fs)
    (h : cv2schema.processFacet fs pfxStr e props fid = .ok props') :
    ∃ body, props' = insertA props (targetKey pfxStr fid) (.jobj body)
      ∧ (fid ∈ cv2schema.integer_fields → body = [("type", .jstr "integer")])
      ∧ (fid = "mip_era" → body = [("const", .jstr "CMIP6")]) := by
  by_cases hint : fid ∈ cv2schema.integer_fields
  · rw [processFacet_int fs pfxStr e props fid hint] at h
    cases h
    refine ⟨[("type", .jstr "integer")], ?_, fun _ => rfl, fun hm => ?_⟩
    · rw [targetKey_int pfxStr fid hint]
    · exfalso
      rw [hm] at hint
      exact absurd hint (by decide)
  · by_cases hmip : fid = "mip_era"
    · subst hmip
      rw [processFacet_mip fs pfxStr e props] at h
      cases h
      refine ⟨[("const", .jstr "CMIP6")], ?_, fun hi => absurd hi hint, fun _ => rfl⟩
      unfold targetKey
      rw [if_pos rfl]
    · have hTK : targetKey pfxStr fid = pfxStr ++ fid := targetKey_other pfxStr fid hmip
      unfold cv2schema.processFacet at h
      rw [if_neg hint, if_neg hmip] at h
      dsimp only at h
      cases htry : cv2schema.tryFacet fs pfxStr e props fid with
      | ok ps =>
          rw [htry] at h
          dsimp only at h
          unfold cv2schema.tryFacet cv2schema.read_cv at htry
          cases hread : fs fid with
          | none => rw [hread] at htry; exact absurd htry (by simp)
          | some od =>
            cases od with
            | none => rw [hread] at htry; exact absurd htry (by simp)
            | some d =>
                rw [hread] at htry
                dsimp only at htry
                have hdoc := hwf fid d hread
                obtain ⟨kvs, vm, payload, rfl, hvm, her, hp⟩ := hdoc
                dsimp only at htry
                cases hcv : (cv2schema.cv_to_property kvs e).2 with
                | error er => rw [hcv] at htry; exact absurd htry (by simp)
                | ok out =>
                    rw [hcv] at htry
                    dsimp only at htry
                    cases htry
                    obtain ⟨body, rfl⟩ := cvtp_WF_ok fid kvs e out
                      ⟨kvs, vm, payload, rfl, hvm, her, hp⟩ hcv
                    have haddp : cv2schema.addProps pfxStr props [(fid, .jobj body)]
                        = insertA props (pfxStr ++ fid) (.jobj body) := rfl
                    rw [haddp] at h
                    obtain ⟨body2, hb⟩ :=
                      formatOverlay_insert props pfxStr fid body props' h
                    exact ⟨body2, by rw [hTK]; exact hb,
                      fun hi => absurd hi hint, fun hm => absurd hm hmip⟩
      | error er =>
          rw [htry] at h
          cases er with
          | fileNotFound =>
              dsimp only at h
              obtain ⟨body2, hb⟩ :=
                formatOverlay_insert props pfxStr fid [("type", .jstr "string")] props' h
              exact ⟨body2, by rw [hTK]; exact hb,
                fun hi => absurd hi hint, fun hm => absurd hm hmip⟩
          | keyError =>
              dsimp only at h
              obtain ⟨body2, hb⟩ :=
                formatOverlay_insert props pfxStr fid [("type", .jstr "string")] props' h
              exact ⟨body2, by rw [hTK]; exact hb,
                fun hi => absurd hi hint, fun hm => absurd hm hmip⟩
          | jsonDecode => exact absurd h (by simp)
          | typeError => exact absurd h (by simp)
          | valueError m => exact absurd h (by simp)

/- ------------------------------------------------------------------ -/
/- buildProps invariants under well-formed CV sets                     -/
/- ------------------------------------------------------------------ -/

theorem buildProps_frame (fs : FS) (pfxStr : String) (e : Bool) (hwf : WF fs) :
    ∀ (l : List String) (props props' : PyDict),
    cv2schema.buildProps fs pfxStr e props l = .ok props' →
    ∀ k, (∀ fid ∈ l, targetKey pfxStr fid ≠ k) →
    lookupA props' k = lookupA props k := by
  intro l
  induction l with
  | nil =>
      intro props props' h k _
      cases h
      rfl
  | cons fid rest ih =>
      intro props props' h k hk
      simp only [cv2schema.buildProps] at h
      cases hp : cv2schema.processFacet fs pfxStr e props fid with
      | error er => rw [hp] at h; exact absurd h (by simp)
      | ok props1 =>
          rw [hp] at h
          dsimp only at h
          obtain ⟨body, rfl, _, _⟩ :=
            processFacet_ok_shape fs pfxStr e props props1 fid hwf hp
          have hrest := ih _ props' h k (fun f hf => hk f (List.mem_cons_of_mem _ hf))
          rw [hrest]
          exact lookupA_insertA_ne props (targetKey pfxStr fid) k (.jobj body)
            (Ne.symm (hk fid (List.mem_cons_self fid rest)))

theorem buildProps_preserves_isSome (fs : FS) (pfxStr : String) (e : Bool)
    (hwf : WF fs) : ∀ (l : List String) (props props' : PyDict),
    cv2schema.buildProps fs pfxStr e props l = .ok props' →
    ∀ k, (lookupA props k).isSome → (lookupA props' k).isSome := by
  intro l
  induction l with
  | nil =>
      intro props props' h k hs
      cases h
      exact hs
  | cons fid rest ih =>
      intro props props' h k hs
      simp only [cv2schema.buildProps] at h
      cases hp : cv2schema.processFacet fs pfxStr e props fid with
      | error er => rw [hp] at h; exact absurd h (by simp)
      | ok props1 =>
          rw [hp] at h
          dsimp only at h
          obtain ⟨body, rfl, _, _⟩ :=
            processFacet_ok_shape fs pfxStr e props props1 fid hwf hp
          exact ih _ props' h k
            (isSome_lookupA_insertA props (targetKey pfxStr fid) k (.jobj body) hs)

theorem buildProps_int_written (fs : FS) (pfxStr : String) (e : Bool)
    (hwf : WF fs) : ∀ (l : List String) (props props' : PyDict),
    cv2schema.buildProps fs pfxStr e props l = .ok props' →
    ∀ fid, fid ∈ l → fid ∈ cv2schema.integer_fields →
    lookupA props' (pfxStr ++ fid) = some (.jobj [("type", .jstr "integer")]) := by
  intro l
  induction l with
  | nil =>
      intro props props' _ fid hmem _
      exact absurd hmem (List.not_mem_nil fid)
  | cons a rest ih =>
      intro props props' h fid hmem hif
      simp only [cv2schema.buildProps] at h
      cases hp : cv2schema.processFacet fs pfxStr e props a with
      | error er => rw [hp] at h; exact absurd h (by simp)
      | ok props1 =>
          rw [hp] at h
          dsimp only at h
          by_cases hfr : fid ∈ rest
          · exact ih _ props' h fid hfr hif
          · have hfa : fid = a := by
              rcases List.mem_cons.mp hmem with h' | h'
              · exact h'
              · exact absurd h' hfr
            subst hfa
            rw [processFacet_int fs pfxStr e props fid hif] at hp
            have hp1 : props1 = insertA props (pfxStr ++ fid)
                (.jobj [("type", .jstr "integer")]) := by
              cases hp
              rfl
            subst hp1
            have hframe := buildProps_frame fs pfxStr e hwf rest _ props' h
              (pfxStr ++ fid)
              (fun f hf => targetKey_ne_of_int pfxStr fid f hif
                (fun he => hfr (he ▸ hf)))
            rw [hframe]
            exact lookupA_insertA_self props (pfxStr ++ fid) _

theorem buildProps_mip_written (fs : FS) (pfxStr : String) (e : Bool)
    (hwf : WF fs) (hpfx : Pfx pfxStr) : ∀ (l : List String) (props props' : PyDict),
    cv2schema.buildProps fs pfxStr e props l = .ok props' →
    "mip_era" ∈ l →
    lookupA props' "mip_era" = some (.jobj [("const", .jstr "CMIP6")]) := by
  intro l
  induction l with
  | nil =>
      intro props props' _ hmem
      exact absurd hmem (List.not_mem_nil _)
  | cons a rest ih =>
      intro props props' h hmem
      simp only [cv2schema.buildProps] at h
      cases hp : cv2schema.processFacet fs pfxStr e props a with
      | error er => rw [hp] at h; exact absurd h (by simp)
      | ok props1 =>
          rw [hp] at h
          dsimp only at h
          by_cases hfr : "mip_era" ∈ rest
          · exact ih _ props' h hfr
          · have hfa : a = "mip_era" := by
              rcases List.mem_cons.mp hmem with h' | h'
              · exact h'.symm
              · exact absurd h' hfr
            subst hfa
            rw [processFacet_mip fs pfxStr e props] at hp
            have hp1 : props1 = insertA props "mip_era"
                (.jobj [("const", .jstr "CMIP6")]) := by
              cases hp
              rfl
            subst hp1
            have hframe := buildProps_frame fs pfxStr e hwf rest _ props' h "mip_era"
              (fun f hf => targetKey_ne_of_mip pfxStr f hpfx
                (fun he => hfr (he ▸ hf)))
            rw [hframe]
            exact lookupA_insertA_self props "mip_era" _

theorem buildProps_written (fs : FS) (pfxStr : String) (e : Bool)
    (hwf : WF fs) : ∀ (l : List String) (props props' : PyDict),
    cv2schema.buildProps fs pfxStr e props l = .ok props' →
    ∀ fid, fid ∈ l → (lookupA props' (targetKey pfxStr fid)).isSome := by
  intro l
  induction l with
  | nil =>
      intro props props' _ fid hmem
      exact absurd hmem (List.not_mem_nil _)
  | cons a rest ih =>
      intro props props' h fid hmem
      simp only [cv2schema.buildProps] at h
      cases hp : cv2schema.processFacet fs pfxStr e props a with
      | error er => rw [hp] at h; exact absurd h (by simp)
      | ok props1 =>
          rw [hp] at h
          dsimp only at h
          by_cases hfr : fid ∈ rest
          · exact ih _ props' h fid hfr
          · have hfa : fid = a := by
              rcases List.mem_cons.mp hmem with h' | h'
              · exact h'
              · exact absurd h' hfr
            subst hfa
            obtain ⟨body, rfl, _, _⟩ :=
              processFacet_ok_shape fs pfxStr e props props1 fid hwf hp
            exact buildProps_preserves_isSome fs pfxStr e hwf rest _ props' h
              (targetKey pfxStr fid)
              (by rw [lookupA_insertA_self]; rfl)

/- ------------------------------------------------------------------ -/
/- make_global_attrs_schema never reads the CV files of index facets   -/
/- or mip_era                                                          -/
/- ------------------------------------------------------------------ -/

theorem tryFacet_congr (fs g : FS) (pfxStr : String) (e : Bool) (props : PyDict)
    (fid x : String) (hx : ∀ k, k ≠ x → g k = fs k) (hne : fid ≠ x) :
    cv2schema.tryFacet g pfxStr e props fid
      = cv2schema.tryFacet fs pfxStr e props fid := by
  unfold cv2schema.tryFacet cv2schema.read_cv
  rw [hx fid hne]

theorem processFacet_congr (fs g : FS) (pfxStr : String) (e : Bool) (props : PyDict)
    (fid x : String) (hx : ∀ k, k ≠ x → g k = fs k)
    (hfid : fid ≠ x ∨ fid ∈ cv2schema.integer_fields ∨ fid = "mip_era") :
    cv2schema.processFacet g pfxStr e props fid
      = cv2schema.processFacet fs pfxStr e props fid := by
  by_cases hint : fid ∈ cv2schema.integer_fields
  · rw [processFacet_int g pfxStr e props fid hint,
      processFacet_int fs pfxStr e props fid hint]
  · by_cases hmip : fid = "mip_era"
    · subst hmip
      rw [processFacet_mip g pfxStr e props, processFacet_mip fs pfxStr e props]
    · have hne : fid ≠ x := by
        rcases hfid with h | h | h
        · exact h
        · exact absurd h hint
        · exact absurd h hmip
      unfold cv2schema.processFacet
      rw [tryFacet_congr fs g pfxStr e props fid x hx hne]

theorem buildProps_congr (fs g : FS) (pfxStr : String) (e : Bool) (x : String)
    (hx : ∀ k, k ≠ x → g k = fs k)
    (hxint : x ∈ cv2schema.integer_fields ∨ x = "mip_era") :
    ∀ (l : List String) (props : PyDict),
    cv2schema.buildProps g pfxStr e props l
      = cv2schema.buildProps fs pfxStr e props l := by
  intro l
  induction l with
  | nil => intro props; rfl
  | cons fid rest ih =>
      intro props
      have hfid : fid ≠ x ∨ fid ∈ cv2schema.integer_fields ∨ fid = "mip_era" := by
        by_cases hfx : fid = x
        · subst hfx
          exact Or.inr hxint
        · exact Or.inl hfx
      simp only [cv2schema.buildProps]
      rw [processFacet_congr fs g pfxStr e props fid x hx hfid]
      cases hp : cv2schema.processFacet fs pfxStr e props fid with
      | error er => rfl
      | ok props1 => exact ih props1

theorem make_congr (fs g : FS) (pfx : Option String) (e : Bool) (x : String)
    (hx : ∀ k, k ≠ x → g k = fs k)
    (hxint : x ∈ cv2schema.integer_fields ∨ x = "mip_era") :
    cv2schema.make_global_attrs_schema g pfx e
      = cv2schema.make_global_attrs_schema fs pfx e := by
  have hrga : g "required_global_attributes" = fs "required_global_attributes" := by
    apply hx
    intro he
    rcases hxint with h | h
    · rw [← he] at h
      exact absurd h (by decide)
    · rw [h] at he
      exact absurd he (by decide)
  unfold cv2schema.make_global_attrs_schema cv2schema.read_cv
  rw [hrga]
  cases h1 : fs "required_global_attributes" with
  | none => rfl
  | some od =>
    cases od with
    | none => rfl
    | some rga =>
        dsimp only
        cases h2 : cv2schema.subscr rga "required_global_attributes" with
        | error er => rfl
        | ok payload =>
            dsimp only
            cases h3 : cv2schema.pyIterStrs payload with
            | error er => rfl
            | ok reqs =>
                dsimp only
                rw [buildProps_congr fs g (cv2schema.pfxString pfx) e x hx hxint reqs []]

/- ------------------------------------------------------------------ -/
/- Destructuring a successful make_global_attrs_schema run             -/
/- ------------------------------------------------------------------ -/

theorem make_ok_parts (fs : FS) (pfx : Option String) (e : Bool) (schema : JVal)
    (h : cv2schema.make_global_attrs_schema fs pfx e = .ok schema) :
    ∃ reqs props,
      cv2schema.buildProps fs (cv2schema.pfxString pfx) e [] reqs = .ok props
      ∧ schema = cv2schema.mkSchema (cv2schema.pfxString pfx) reqs props := by
  unfold cv2schema.make_global_attrs_schema at h
  cases h1 : cv2schema.read_cv fs "required_global_attributes" with
  | error er => rw [h1] at h; exact absurd h (by simp)
  | ok rga =>
      rw [h1] at h
      dsimp only at h
      cases h2 : cv2schema.subscr rga "required_global_attributes" with
      | error er => rw [h2] at h; exact absurd h (by simp)
      | ok payload =>
          rw [h2] at h
          dsimp only at h
          cases h3 : cv2schema.pyIterStrs payload with
          | error er => rw [h3] at h; exact absurd h (by simp)
          | ok reqs =>
              rw [h3] at h
              dsimp only at h
              cases h4 : cv2schema.buildProps fs (cv2schema.pfxString pfx) e [] reqs with
              | error er => rw [h4] at h; exact absurd h (by simp)
              | ok props =>
                  rw [h4] at h
                  dsimp only at h
                  cases h
                  exact ⟨reqs, props, h4, rfl⟩

theorem requiredList_mkSchema (pfxStr : String) (reqs : List String) (props : PyDict) :
    requiredList (cv2schema.mkSchema pfxStr reqs props)
      = some (reqs.map (fun fid => .jstr (pfxStr ++ fid))) := rfl

theorem propsObj_mkSchema (pfxStr : String) (reqs : List String) (props : PyDict) :
    getKey (cv2schema.mkSchema pfxStr reqs props) "properties"
      = some (.jobj props) := rfl

theorem propLookup_mkSchema (pfxStr : String) (reqs : List String) (props : PyDict)
    (k : String) :
    propLookup (cv2schema.mkSchema pfxStr reqs props) k = lookupA props k := rfl

/- ------------------------------------------------------------------ -/
/- Well-formedness of the concrete CV stores                           -/
/- ------------------------------------------------------------------ -/

theorem wf_fsC1 : WF fsC1 := by
  intro k d h
  unfold fsC1 at h
  by_cases h1 : k = "required_global_attributes"
  · subst h1
    rw [if_pos rfl] at h
    simp only [Option.some.injEq] at h
    subst h
    exact ⟨_, _, _, rfl, rfl, rfl, Or.inr ⟨_, rfl⟩⟩
  · rw [if_neg h1] at h
    exact absurd h (by simp)

theorem wf_fsW : WF fsW := by
  intro k d h
  unfold fsW at h
  by_cases h1 : k = "required_global_attributes"
  · subst h1
    rw [if_pos rfl] at h
    simp only [Option.some.injEq] at h
    subst h
    exact ⟨_, _, _, rfl, rfl, rfl, Or.inr ⟨_, rfl⟩⟩
  · rw [if_neg h1] at h
    by_cases h2 : k = "activity_id"
    · subst h2
      rw [if_pos rfl] at h
      simp only [Option.some.injEq] at h
      subst h
      exact ⟨_, _, _, rfl, rfl, rfl, Or.inl ⟨_, rfl⟩⟩
    · rw [if_neg h2] at h
      exact absurd h (by simp)

/- ------------------------------------------------------------------ -/
/- Claim C7                                                            -/
/- ------------------------------------------------------------------ -/

/-- Claim C7: over a well-formed CV set, every index facet appearing in
the required list gets exactly the {"type": "integer"} fragment in the
generated schema's properties (so never a oneOf or enum), and the result
does not depend on whether a CV file exists for that facet: changing the
CV store at that facet's key changes nothing. -/
theorem C7_index_facets_integer (fs : FS) (pfx : Option String) (e : Bool)
    (schema : JVal) (fid : String)
    (hwf : WF fs)
    (hok : cv2schema.make_global_attrs_schema fs pfx e = .ok schema)
    (hfid : fid ∈ cv2schema.integer_fields)
    (hreq : ∃ req, requiredList schema = some req
              ∧ .jstr (cv2schema.pfxString pfx ++ fid) ∈ req) :
    propLookup schema (cv2schema.pfxString pfx ++ fid)
        = some (.jobj [("type", .jstr "integer")])
      ∧ ∀ g : FS, (∀ k, k ≠ fid → g k = fs k) →
          cv2schema.make_global_attrs_schema g pfx e = .ok schema := by
  obtain ⟨reqs, props, hbp, rfl⟩ := make_ok_parts fs pfx e schema hok
  constructor
  · rw [propLookup_mkSchema]
    obtain ⟨req, hr, hmem⟩ := hreq
    rw [requiredList_mkSchema] at hr
    simp only [Option.some.injEq] at hr
    subst hr
    obtain ⟨f, hf, hfe⟩ := List.mem_map.mp hmem
    have hffid : f = fid := str_append_left_cancel _ _ _ (by injection hfe)
    subst hffid
    exact buildProps_int_written fs _ e hwf reqs [] props hbp f hf hfid
  · intro g hg
    rw [make_congr fs g pfx e fid hg (Or.inl hfid)]
    exact hok

theorem C7_index_facets_integer_witness :
    propLookup schemaWVal (cv2schema.pfxString none ++ "realization_index")
        = some (.jobj [("type", .jstr "integer")])
    ∧ cv2schema.make_global_attrs_schema fsW3 none false = .ok schemaWVal := by
  have h := C7_index_facets_integer fsW none false schemaWVal "realization_index"
    wf_fsW rfl (by decide)
    ⟨[.jstr "activity_id", .jstr "mip_era", .jstr "realization_index",
      .jstr "creation_date"], rfl,
      List.mem_cons_of_mem _ (List.mem_cons_of_mem _ (List.mem_cons_self _ _))⟩
  refine ⟨h.1, h.2 fsW3 ?_⟩
  intro k hk
  show (if k = "realization_index" then some none else fsW k) = fsW k
  rw [if_neg hk]

/- ------------------------------------------------------------------ -/
/- Claim C6                                                            -/
/- ------------------------------------------------------------------ -/

/-- Claim C6: over a well-formed CV set whose required list contains
mip_era, the generated schema's property for mip_era (stored under the
unprefixed key "mip_era") is exactly {"const": "CMIP6"}, and the result
does not depend on any CMIP6_mip_era CV file: changing the CV store at
key "mip_era" (adding, removing or corrupting that file) changes
nothing. -/
theorem C6_mip_era_constant (fs : FS) (pfx : Option String) (e : Bool)
    (schema : JVal)
    (hwf : WF fs)
    (hok : cv2schema.make_global_attrs_schema fs pfx e = .ok schema)
    (hreq : ∃ req, requiredList schema = some req
              ∧ .jstr (cv2schema.pfxString pfx ++ "mip_era") ∈ req) :
    propLookup schema "mip_era" = some (.jobj [("const", .jstr "CMIP6")])
      ∧ ∀ g : FS, (∀ k, k ≠ "mip_era" → g k = fs k) →
          cv2schema.make_global_attrs_schema g pfx e = .ok schema := by
  obtain ⟨reqs, props, hbp, rfl⟩ := make_ok_parts fs pfx e schema hok
  constructor
  · rw [propLookup_mkSchema]
    obtain ⟨req, hr, hmem⟩ := hreq
    rw [requiredList_mkSchema] at hr
    simp only [Option.some.injEq] at hr
    subst hr
    obtain ⟨f, hf, hfe⟩ := List.mem_map.mp hmem
    have hffid : f = "mip_era" := str_append_left_cancel _ _ _ (by injection hfe)
    subst hffid
    exact buildProps_mip_written fs _ e hwf (pfxString_Pfx pfx) reqs [] props hbp hf
  · intro g hg
    rw [make_congr fs g pfx e "mip_era" hg (Or.inr rfl)]
    exact hok

theorem C6_mip_era_constant_witness :
    propLookup schemaWVal "mip_era" = some (.jobj [("const", .jstr "CMIP6")])
    ∧ cv2schema.make_global_attrs_schema fsW2 none false = .ok schemaWVal := by
  have h := C6_mip_era_constant fsW none false schemaWVal wf_fsW rfl
    ⟨[.jstr "activity_id", .jstr "mip_era", .jstr "realization_index",
      .jstr "creation_date"], rfl,
      List.mem_cons_of_mem _ (List.mem_cons_self _ _)⟩
  refine ⟨h.1, h.2 fsW2 ?_⟩
  intro k hk
  show (if k = "mip_era" then some none else fsW k) = fsW k
  rw [if_neg hk]

/- ------------------------------------------------------------------ -/
/- Claim C1                                                            -/
/- ------------------------------------------------------------------ -/

/-- Claim C1 counterexample: with prefix "ds" and mip_era in the required
list, the required array contains "ds:mip_era" but the properties object
has no key "ds:mip_era" — the mip_era property is stored under the
unprefixed key "mip_era" (cv2schema.py line 84 writes
props["mip_era"], not props[prefix + fid]). -/
theorem C1_counterexample_prefixed_mip_era :
    cv2schema.make_global_attrs_schema fsC1 (some "ds") false = .ok schemaC1Val
    ∧ requiredList schemaC1Val = some [.jstr "ds:mip_era"]
    ∧ propLookup schemaC1Val "ds:mip_era" = none
    ∧ propLookup schemaC1Val "mip_era" = some (.jobj [("const", .jstr "CMIP6")]) :=
  ⟨rfl, rfl, rfl, rfl⟩

/-- Claim C1 (amended): over a well-formed CV set, the required list is
exactly the prefixed facet list, and every required facet other than
mip_era has a properties key under identical prefixing; mip_era's
property key however is always the unprefixed "mip_era" (with value
{"const": "CMIP6"}), so with a non-empty prefix the required entry
prefix:mip_era has no identically-prefixed properties key. -/
theorem C1_amended_required_properties_alignment (fs : FS) (pfx : Option String)
    (e : Bool) (schema : JVal)
    (hwf : WF fs)
    (hok : cv2schema.make_global_attrs_schema fs pfx e = .ok schema) :
    ∃ (reqs : List String) (props : PyDict),
      requiredList schema
          = some (reqs.map (fun fid => .jstr (cv2schema.pfxString pfx ++ fid)))
      ∧ getKey schema "properties" = some (.jobj props)
      ∧ (∀ fid, fid ∈ reqs → fid ≠ "mip_era" →
          (lookupA props (cv2schema.pfxString pfx ++ fid)).isSome)
      ∧ ("mip_era" ∈ reqs →
          lookupA props "mip_era" = some (.jobj [("const", .jstr "CMIP6")])) := by
  obtain ⟨reqs, props, hbp, rfl⟩ := make_ok_parts fs pfx e schema hok
  refine ⟨reqs, props, requiredList_mkSchema _ _ _, propsObj_mkSchema _ _ _, ?_, ?_⟩
  · intro fid hmem hne
    have hw := buildProps_written fs _ e hwf reqs [] props hbp fid hmem
    rwa [targetKey_other _ _ hne] at hw
  · intro hmem
    exact buildProps_mip_written fs _ e hwf (pfxString_Pfx pfx) reqs [] props hbp hmem

theorem C1_amended_required_properties_alignment_witness :
    ∃ (reqs : List String) (props : PyDict),
      requiredList schemaC1Val
          = some (reqs.map (fun fid => .jstr (cv2schema.pfxString (some "ds") ++ fid)))
      ∧ getKey schemaC1Val "properties" = some (.jobj props)
      ∧ (∀ fid, fid ∈ reqs → fid ≠ "mip_era" →
          (lookupA props (cv2schema.pfxString (some "ds") ++ fid)).isSome)
      ∧ ("mip_era" ∈ reqs →
          lookupA props "mip_era" = some (.jobj [("const", .jstr "CMIP6")])) :=
  C1_amended_required_properties_alignment fsC1 (some "ds") false schemaC1Val
    wf_fsC1 rfl
